import Mathlib

/-!
Shallow embedding of the charity: water "Ripple Effect" mini-game logic
from src/game.js.  The game is a single-threaded animation/input loop over
a small mutable state; we model that state explicitly and every event
handler or frame step as a pure state transformer.

Modelling conventions:
* JavaScript numbers are modelled as exact rationals (ℚ); score and lives,
  which only ever hold integers, as ℤ.
* Sources of nondeterminism and ambient inputs (Math.random draws,
  Date.now, Math.sin, the canvas dimensions) are passed in explicitly
  through an `Env` record; theorems about random draws carry the range
  guarantee of `rand(min, max)` (game.js line 127) as a hypothesis.
* Presentation-only state that never feeds back into the game logic is not
  modelled: canvas drawing, audio, DOM / UI text (resetUI, flashScreen),
  particles, ripples, per-drop cosmetic fields (rotation, rotationSpeed,
  trail, opacity, birth), milestone notifications, modal and fullscreen
  handling, and the animation bookkeeping variables lastFrame/animationId/
  timerId.  None of these is read by the logic that updates drops, score,
  lives, waterPercent, timeLeft or spawnInterval.
* The hit test `dist < d.size*1.8` compares a Euclidean norm; we encode it
  by comparing squares, which is equivalent whenever `d.size*1.8 ≥ 0`, and
  every drop the game creates has positive size.
-/

namespace RippleEffect

/-- The three difficulty modes (game.js line 52, `currentDifficulty`). -/
inductive Difficulty
  | easy
  | normal
  | hard
  deriving DecidableEq, Repr

/-- One entry of `difficultySettings` (game.js lines 54-60). -/
structure DifficultySetting where
  spawnInterval : ℚ
  spawnMin : ℚ
  spawnAccel : ℚ
  dropSpeed : ℚ
  roundTime : ℚ
  lives : ℤ
  deriving DecidableEq, Repr

/-- The `difficultySettings` table (game.js lines 54-60). -/
def difficultySettings : Difficulty → DifficultySetting
  | .easy   => { spawnInterval := 950, spawnMin := 520, spawnAccel := 10,
                 dropSpeed := 13/10, roundTime := 45, lives := 5 }
  | .normal => { spawnInterval := 650, spawnMin := 340, spawnAccel := 14,
                 dropSpeed := 17/10, roundTime := 30, lives := 3 }
  | .hard   => { spawnInterval := 420, spawnMin := 220, spawnAccel := 18,
                 dropSpeed := 11/5, roundTime := 20, lives := 2 }

/-- A falling drop (game.js `createDrop`, lines 129-147).  Only the fields
read by the update / input logic are kept; rotation, rotationSpeed, birth,
opacity and trail are draw-only. -/
structure Drop where
  x : ℚ
  y : ℚ
  size : ℚ
  speed : ℚ
  polluted : Bool
  vx : ℚ
  gravity : ℚ
  drag : ℚ
  deriving DecidableEq, Repr

/-- The mutable game state (game.js lines 38-52).  `lastFrame`, `timerId`
and `animationId` are animation bookkeeping and are not modelled; the frame
delta `dt` and the wall clock are passed in explicitly instead. -/
structure GameState where
  running : Bool
  paused : Bool
  drops : List Drop
  lastSpawn : ℚ
  spawnInterval : ℚ
  score : ℤ
  lives : ℤ
  waterPercent : ℚ
  timeLeft : ℚ
  currentDifficulty : Difficulty
  deriving DecidableEq, Repr

/-- Ambient inputs of one frame: the wall clock `Date.now()`, the `Math.sin`
function (abstract: the game only feeds its output into the cosmetic wind
drift of `vx`), the canvas dimensions, and the random draws consumed if a
drop is spawned this frame (`spawnDrop` / `createDrop`). -/
structure Env where
  now : ℚ
  sin : ℚ → ℚ
  canvasW : ℚ
  canvasH : ℚ
  spawnPolluted : Bool
  spawnSize : ℚ
  spawnX : ℚ
  spawnSpeed : ℚ
  spawnVx : ℚ

/-- `createDrop` (game.js lines 129-147).  The three `rand` draws — the
size, the x position drawn from `rand(size*2, w - size*2)`, the base speed —
and the `vx` draw are parameters; theorems state their ranges as
hypotheses.  `y` starts at `-size*2`, the speed and gravity are scaled by
the difficulty's `dropSpeed`, and `drag` is the constant 0.999. -/
def createDrop (diff : Difficulty) (isPolluted : Bool)
    (size x speed0 vx : ℚ) : Drop :=
  let speedMult := (difficultySettings diff).dropSpeed
  { x := x
    y := -size * 2
    size := size
    speed := speed0 * speedMult
    polluted := isPolluted
    vx := vx
    gravity := (if isPolluted then 90 else 75) * speedMult
    drag := 999/1000 }

/-- The hit test of `handlePointer` (game.js lines 430-431):
`sqrt(dx*dx + dy*dy) < d.size*1.8`, encoded square-free by comparing
squares (equivalent for drops of nonnegative size). -/
def hitTest (d : Drop) (tx ty : ℚ) : Bool :=
  let dx := d.x - tx
  let dy := d.y - ty
  decide (dx * dx + dy * dy < (d.size * (9/5)) * (d.size * (9/5)))

/-- The backwards scan of `handlePointer` (game.js lines 428-444): iterate
from the END of the drop list and stop at the first drop whose hit test
succeeds.  Returns that drop together with the list with exactly that one
occurrence spliced out, or `none` when no drop is hit. -/
def tapScan (tx ty : ℚ) : List Drop → Option (Drop × List Drop)
  | [] => none
  | d :: rest =>
    match tapScan tx ty rest with
    | some (hit, rest') => some (hit, d :: rest')
    | none => if hitTest d tx ty then some (d, rest) else none

/-- `endRound` (game.js lines 489-504): stops the round.  All its other
effects (stopping the interval timer, UI text, results panel, coins) are
presentation-only. -/
def endRound (st : GameState) : GameState :=
  { st with running := false, paused := false }

/-- `checkGameOver` (game.js line 512): end the round when lives are
exhausted or the water meter is full. -/
def checkGameOver (st : GameState) : GameState :=
  if st.lives ≤ 0 ∨ 100 ≤ st.waterPercent then endRound st else st

/-- `handlePointer` (game.js lines 420-445), with the tap already converted
to canvas coordinates `(tx, ty)` (the conversion from client coordinates,
lines 423-427, is pure DOM geometry).  A hit on a polluted drop costs a
life and 10 water points, both floored at 0; a hit on a clean drop adds 10
score and 6 water points capped at 100; in both cases the drop is removed
and `checkGameOver` runs.  When nothing is hit, or `running` is false, the
state is unchanged. -/
def handlePointer (st : GameState) (tx ty : ℚ) : GameState :=
  if st.running = false then st
  else
    match tapScan tx ty st.drops with
    | none => st
    | some (d, rest) =>
      if d.polluted then
        checkGameOver { st with
          drops := rest
          lives := max 0 (st.lives - 1)
          waterPercent := max 0 (st.waterPercent - 10) }
      else
        checkGameOver { st with
          drops := rest
          score := st.score + 10
          waterPercent := min 100 (st.waterPercent + 6) }

/-- The physics step applied to one drop inside `update`'s loop
(game.js lines 239-245): gravity, drag, horizontal damping, position
integration, then sinusoidal wind acting on `vx` (evaluated at the already
updated `x`).  The trail / rotation updates are draw-only and omitted. -/
def dropPhysics (env : Env) (dt : ℚ) (d : Drop) : Drop :=
  let speed1 := (d.speed + d.gravity * dt) * d.drag
  let vx1 := d.vx * (996/1000)
  let y1 := d.y + speed1 * dt
  let x1 := d.x + vx1 * dt
  let wind := env.sin (env.now * (1/1000) + x1 * (1/100)) * 5
  { d with speed := speed1, y := y1, x := x1, vx := vx1 + wind * dt }

/-- The off-bottom test of `update` (game.js line 246):
`d.y - d.size > canvas._h + 60`, on the drop AFTER its physics step. -/
def offBottom (env : Env) (d : Drop) : Bool :=
  decide (d.y - d.size > env.canvasH + 60)

/-- The wall clamps of `update` (game.js lines 250-251): bounce the drop
off the left and right canvas edges, damping `vx` by 0.7.  The two `if`s
run in sequence on the possibly already clamped drop, as in the source. -/
def clampX (w : ℚ) (d : Drop) : Drop :=
  let d1 := if d.x - d.size < 0 then { d with x := d.size, vx := |d.vx| * (7/10) }
            else d
  if d1.x + d1.size > w then { d1 with x := w - d1.size, vx := -|d1.vx| * (7/10) }
  else d1

/-- The drop loop of `update` (game.js lines 237-252), which iterates from
the END of the list (the source splices while iterating backwards, so
later elements are processed first and the surviving drops keep their
order).  Each drop gets its physics step; a drop past the bottom is
removed and, when clean, costs `max 0 (waterPercent - 1.2)`; a surviving
drop is clamped to the canvas walls.  Returns the new list and the new
water percentage. -/
def stepDrops (env : Env) (dt : ℚ) : List Drop → ℚ → List Drop × ℚ
  | [], w => ([], w)
  | d :: rest, w =>
    let r := stepDrops env dt rest w
    let d1 := dropPhysics env dt d
    if offBottom env d1 then
      (r.1, if d1.polluted = false then max 0 (r.2 - 6/5) else r.2)
    else
      (clampX env.canvasW d1 :: r.1, r.2)

/-- `spawnDrop` (game.js lines 148-152) pushes one new drop.  The polluted
coin flip `Math.random() < min(0.28, 0.08 + (30 - timeLeft)*0.006)` is an
external random outcome, modelled by `env.spawnPolluted`. -/
def spawnDrop (env : Env) (st : GameState) : GameState :=
  { st with drops := st.drops ++
      [createDrop st.currentDifficulty env.spawnPolluted
        env.spawnSize env.spawnX env.spawnSpeed env.spawnVx] }

/-- `update` (game.js lines 225-253).  If `now - lastSpawn > spawnInterval`
a drop is spawned, `lastSpawn` is reset and the spawn interval is
recomputed as `max spawnMin (spawnInterval₀ - elapsed * spawnAccel)` from
the current difficulty's settings (with `elapsed = roundTime - timeLeft`);
then every drop — including a just spawned one — takes its physics step,
off-bottom drops are removed with the miss penalty, and survivors are
clamped to the walls. -/
def update (env : Env) (dt : ℚ) (st : GameState) : GameState :=
  let st1 :=
    if env.now - st.lastSpawn > st.spawnInterval then
      let s := difficultySettings st.currentDifficulty
      let elapsed := s.roundTime - st.timeLeft
      { spawnDrop env st with
        lastSpawn := env.now
        spawnInterval := max s.spawnMin (s.spawnInterval - elapsed * s.spawnAccel) }
    else st
  let r := stepDrops env dt st1.drops st1.waterPercent
  { st1 with drops := r.1, waterPercent := r.2 }

/-- One tick of the interval timer installed by `startTimer` (game.js
lines 459-465): decrement `timeLeft`; when it reaches (or passes) 0, clamp
it to 0 and end the round. -/
def timerTick (st : GameState) : GameState :=
  let t := st.timeLeft - 1
  if t ≤ 0 then endRound { st with timeLeft := 0 } else { st with timeLeft := t }

/-- The module-level constant `roundTime = 30` (game.js line 46), which
`startTimer` (line 460) assigns to `timeLeft` when the timer starts. -/
def roundTime : ℚ := 30

/-- `startRound` (game.js lines 469-488) together with the `startTimer`
call it makes: apply the difficulty settings (starting spawn interval,
lives), clear the drops, reset score and water, and mark the round
running.  `startRound` first writes `timeLeft = settings.roundTime`
(line 475), but the `startTimer()` it then calls (line 481) immediately
overwrites that with `timeLeft = roundTime`, the module constant 30
(line 460) — so the net effect on `timeLeft` is the constant 30 for
every difficulty, and the line-475 assignment is dead. -/
def startRound (st : GameState) : GameState :=
  let s := difficultySettings st.currentDifficulty
  { st with
    spawnInterval := s.spawnInterval
    lives := s.lives
    timeLeft := roundTime
    drops := []
    lastSpawn := 0
    running := true
    paused := false
    score := 0
    waterPercent := 0 }

/-- The in-place `drops.sort((a,b) => a.y - b.y)` performed by `render`
(game.js line 402): sort the drop list by ascending `y`.  (JavaScript's
sort is stable; no theorem below depends on the order of drops with equal
`y`.) -/
def sortByY (l : List Drop) : List Drop :=
  l.insertionSort (fun a b => a.y ≤ b.y)

/-- The state effect of `render` (game.js lines 397-407): the only game
state it mutates is the drop list, which it sorts by `y`.  (All drawing,
and the particle / ripple updates, are presentation-only.) -/
def render (st : GameState) : GameState :=
  { st with drops := sortByY st.drops }

/-- One frame of the main loop (game.js lines 411-417): run `update`
unless paused, then `render`. -/
def loop (env : Env) (dt : ℚ) (st : GameState) : GameState :=
  render (if st.paused = false then update env dt st else st)

/-! Concrete sample data used by the closed-form checks below. -/

/-- A frame environment with zeroed randomness: wall clock 0, `sin` the
zero function, the default 720x420 canvas, and fixed spawn draws. -/
def envW : Env :=
  { now := 0, sin := fun _ => 0, canvasW := 720, canvasH := 420,
    spawnPolluted := false, spawnSize := 20, spawnX := 100,
    spawnSpeed := 40, spawnVx := 0 }

/-- A clean drop sitting at (100, 100). -/
def dropW : Drop :=
  { x := 100, y := 100, size := 20, speed := 34, polluted := false,
    vx := 0, gravity := 255/2, drag := 999/1000 }

/-- A polluted drop sitting at (100, 100). -/
def dropP : Drop :=
  { x := 100, y := 100, size := 24, speed := 68, polluted := true,
    vx := 0, gravity := 153, drag := 999/1000 }

/-- A running normal-difficulty state holding one clean drop. -/
def stW : GameState :=
  { running := true, paused := false, drops := [dropW], lastSpawn := 0,
    spawnInterval := 650, score := 0, lives := 3, waterPercent := 50,
    timeLeft := 30, currentDifficulty := .normal }

/-- The state `stW` holding one polluted drop instead. -/
def stWP : GameState := { stW with drops := [dropP] }

/-- A polluted drop already past the bottom of the 420-high canvas. -/
def dropMissP : Drop := { dropP with y := 1000, speed := 0, gravity := 0 }

/-- A clean drop already past the bottom of the canvas. -/
def dropMissC : Drop := { dropW with y := 1000, speed := 0, gravity := 0 }

/-- The state `stW` holding one polluted drop past the bottom. -/
def stMissP : GameState := { stW with drops := [dropMissP] }

/-- The state `stW` holding a surviving clean drop and a clean drop past
the bottom. -/
def stMix : GameState := { stW with drops := [dropW, dropMissC] }

/-- A running state one polluted tap away from losing the last life, with
10 seconds still on the clock. -/
def stC5 : GameState := { stW with lives := 1, timeLeft := 10, drops := [dropP] }

/-- The earlier-spawned of two overlapping drops: lower on screen. -/
def dropA8 : Drop := { dropW with y := 120 }

/-- The later-spawned of two overlapping drops: higher on screen. -/
def dropB8 : Drop := { dropW with y := 90 }

/-- A running state whose drop list is in spawn order: `dropA8` first
(spawned earlier), `dropB8` second (most recently spawned). -/
def stC8 : GameState := { stW with drops := [dropA8, dropB8] }

/-- The state `stW`, paused. -/
def stPW : GameState := { stW with paused := true }

/-- The state `stW` with the EASY difficulty selected. -/
def stEasy : GameState := { stW with currentDifficulty := .easy }

/-! Helper lemmas about the individual operations. -/

theorem checkGameOver_waterPercent (st : GameState) :
    (checkGameOver st).waterPercent = st.waterPercent := by
  unfold checkGameOver endRound; split <;> rfl

theorem checkGameOver_score (st : GameState) :
    (checkGameOver st).score = st.score := by
  unfold checkGameOver endRound; split <;> rfl

theorem checkGameOver_lives (st : GameState) :
    (checkGameOver st).lives = st.lives := by
  unfold checkGameOver endRound; split <;> rfl

theorem checkGameOver_drops (st : GameState) :
    (checkGameOver st).drops = st.drops := by
  unfold checkGameOver endRound; split <;> rfl

theorem checkGameOver_timeLeft (st : GameState) :
    (checkGameOver st).timeLeft = st.timeLeft := by
  unfold checkGameOver endRound; split <;> rfl

theorem checkGameOver_running_eq_false (st : GameState)
    (h : (checkGameOver st).running = false) :
    st.running = false ∨ st.lives ≤ 0 ∨ 100 ≤ st.waterPercent := by
  unfold checkGameOver endRound at h
  split at h
  · next hcond => exact Or.inr hcond
  · exact Or.inl h

theorem tapScan_none_mem (tx ty : ℚ) (l : List Drop) (h : tapScan tx ty l = none) :
    ∀ d ∈ l, hitTest d tx ty = false := by
  induction l with
  | nil => intro d hd; cases hd
  | cons a rest ih =>
    rw [tapScan] at h
    rcases htap : tapScan tx ty rest with _ | p
    · rw [htap] at h
      by_cases ha : hitTest a tx ty = true
      · rw [if_pos ha] at h; cases h
      · intro d hd
        rcases List.mem_cons.mp hd with rfl | hd
        · exact Bool.not_eq_true _ |>.mp ha
        · exact ih htap d hd
    · rw [htap] at h; cases h

theorem tapScan_some (tx ty : ℚ) (l : List Drop) (d : Drop) (r : List Drop)
    (h : tapScan tx ty l = some (d, r)) :
    ∃ pre post, l = pre ++ d :: post ∧ r = pre ++ post ∧
      hitTest d tx ty = true ∧ ∀ e ∈ post, hitTest e tx ty = false := by
  induction l generalizing d r with
  | nil => cases h
  | cons a rest ih =>
    rw [tapScan] at h
    rcases htap : tapScan tx ty rest with _ | ⟨hit, rest'⟩
    · rw [htap] at h
      by_cases ha : hitTest a tx ty = true
      · rw [if_pos ha] at h
        simp only [Option.some.injEq, Prod.mk.injEq] at h
        obtain ⟨rfl, rfl⟩ := h
        exact ⟨[], rest, rfl, rfl, ha, tapScan_none_mem tx ty rest htap⟩
      · rw [if_neg ha] at h; cases h
    · rw [htap] at h
      simp only [Option.some.injEq, Prod.mk.injEq] at h
      obtain ⟨rfl, rfl⟩ := h
      obtain ⟨pre, post, hsplit, hrest, hhit, hpost⟩ := ih hit rest' htap
      exact ⟨a :: pre, post, by rw [hsplit]; rfl, by rw [hrest]; rfl, hhit, hpost⟩

theorem stepDrops_water_bounds (env : Env) (dt : ℚ) (l : List Drop) (w : ℚ)
    (h0 : 0 ≤ w) (h100 : w ≤ 100) :
    0 ≤ (stepDrops env dt l w).2 ∧ (stepDrops env dt l w).2 ≤ 100 := by
  induction l with
  | nil => exact ⟨h0, h100⟩
  | cons a rest ih =>
    obtain ⟨ih0, ih100⟩ := ih
    rw [stepDrops]
    split
    · split
      · refine ⟨le_max_left _ _, max_le (by norm_num) (by linarith)⟩
      · exact ⟨ih0, ih100⟩
    · exact ⟨ih0, ih100⟩

theorem stepDrops_characterization (env : Env) (dt : ℚ) (l : List Drop) (w : ℚ) :
    (stepDrops env dt l w).1
      = ((l.map (dropPhysics env dt)).filter
          (fun d => !offBottom env d)).map (clampX env.canvasW) ∧
    (stepDrops env dt l w).2
      = List.foldr (fun _ w => max 0 (w - 6/5)) w
          (((l.map (dropPhysics env dt)).filter (fun d => offBottom env d)).filter
            (fun d => !d.polluted)) := by
  induction l with
  | nil => exact ⟨rfl, rfl⟩
  | cons a rest ih =>
    obtain ⟨ih1, ih2⟩ := ih
    by_cases hb : offBottom env (dropPhysics env dt a) = true
    · by_cases hp : (dropPhysics env dt a).polluted = true
      · exact ⟨by simp [stepDrops, hb, hp, ih1, List.filter_cons],
              by simp [stepDrops, hb, hp, ih2, List.filter_cons]⟩
      · exact ⟨by simp [stepDrops, hb, hp, ih1, List.filter_cons],
              by simp [stepDrops, hb, hp, ih2, List.filter_cons]⟩
    · exact ⟨by simp [stepDrops, hb, ih1, List.filter_cons],
            by simp [stepDrops, hb, ih2, List.filter_cons]⟩

theorem handlePointer_eq_of_not_running (st : GameState) (tx ty : ℚ)
    (h : st.running = false) : handlePointer st tx ty = st := by
  simp [handlePointer, h]

theorem handlePointer_eq_of_none (st : GameState) (tx ty : ℚ)
    (h : tapScan tx ty st.drops = none) : handlePointer st tx ty = st := by
  unfold handlePointer
  split
  · rfl
  · rw [h]

theorem handlePointer_eq_of_polluted (st : GameState) (tx ty : ℚ) (d : Drop)
    (rest : List Drop) (hrun : st.running = true)
    (htap : tapScan tx ty st.drops = some (d, rest)) (hpol : d.polluted = true) :
    handlePointer st tx ty
      = checkGameOver { st with
          drops := rest
          lives := max 0 (st.lives - 1)
          waterPercent := max 0 (st.waterPercent - 10) } := by
  simp [handlePointer, hrun, htap, hpol]

theorem handlePointer_eq_of_clean (st : GameState) (tx ty : ℚ) (d : Drop)
    (rest : List Drop) (hrun : st.running = true)
    (htap : tapScan tx ty st.drops = some (d, rest)) (hpol : d.polluted = false) :
    handlePointer st tx ty
      = checkGameOver { st with
          drops := rest
          score := st.score + 10
          waterPercent := min 100 (st.waterPercent + 6) } := by
  simp [handlePointer, hrun, htap, hpol]

theorem update_running (env : Env) (dt : ℚ) (st : GameState) :
    (update env dt st).running = st.running := by
  unfold update spawnDrop
  split <;> rfl

theorem update_waterPercent (env : Env) (dt : ℚ) (st : GameState) :
    (update env dt st).waterPercent
      = (stepDrops env dt st.drops st.waterPercent).2
        ∨ (update env dt st).waterPercent
      = (stepDrops env dt
          (st.drops ++ [createDrop st.currentDifficulty env.spawnPolluted
            env.spawnSize env.spawnX env.spawnSpeed env.spawnVx]) st.waterPercent).2 := by
  unfold update spawnDrop
  split
  · exact Or.inr rfl
  · exact Or.inl rfl

/-! Claim theorems. -/

/-- C1: the water meter always stays within 0..100: a pointer tap (clean
or polluted hit, or no hit), a frame update (which applies the miss
penalty for drops fallen past the bottom), and starting a round all leave
`waterPercent` at least 0 and at most 100. -/
theorem waterPercent_in_range (env : Env) (dt tx ty : ℚ) (st : GameState)
    (h0 : 0 ≤ st.waterPercent) (h100 : st.waterPercent ≤ 100) :
    (0 ≤ (handlePointer st tx ty).waterPercent
      ∧ (handlePointer st tx ty).waterPercent ≤ 100) ∧
    (0 ≤ (update env dt st).waterPercent
      ∧ (update env dt st).waterPercent ≤ 100) ∧
    (0 ≤ (startRound st).waterPercent
      ∧ (startRound st).waterPercent ≤ 100) := by
  refine ⟨?_, ?_, by norm_num [startRound]⟩
  · by_cases hrun : st.running = true
    · rcases htap : tapScan tx ty st.drops with _ | ⟨d, rest⟩
      · rw [handlePointer_eq_of_none st tx ty htap]
        exact ⟨h0, h100⟩
      · by_cases hpol : d.polluted = true
        · rw [handlePointer_eq_of_polluted st tx ty d rest hrun htap hpol,
            checkGameOver_waterPercent]
          exact ⟨le_max_left _ _, max_le (by norm_num) (by linarith)⟩
        · rw [handlePointer_eq_of_clean st tx ty d rest hrun htap
            (Bool.not_eq_true _ |>.mp hpol), checkGameOver_waterPercent]
          exact ⟨le_min (by norm_num) (by linarith), min_le_left _ _⟩
    · rw [handlePointer_eq_of_not_running st tx ty (Bool.not_eq_true _ |>.mp hrun)]
      exact ⟨h0, h100⟩
  · rcases update_waterPercent env dt st with h | h <;> rw [h] <;>
      exact stepDrops_water_bounds env dt _ _ h0 h100

/-- Closed-form check of `waterPercent_in_range` at the sample state. -/
theorem waterPercent_in_range_witness :
    (0 ≤ (handlePointer stW 100 100).waterPercent
      ∧ (handlePointer stW 100 100).waterPercent ≤ 100) ∧
    (0 ≤ (update envW 0 stW).waterPercent
      ∧ (update envW 0 stW).waterPercent ≤ 100) ∧
    (0 ≤ (startRound stW).waterPercent
      ∧ (startRound stW).waterPercent ≤ 100) :=
  waterPercent_in_range envW 0 100 100 stW (by norm_num [stW]) (by norm_num [stW])

/-- C2: while a round runs, a tap that hits a clean drop sets the water
meter to `min 100 (waterPercent + 6)` — an increase of 6 points capped at
100, never a decrease — and increases the score by exactly 10. -/
theorem clean_hit_gains (st : GameState) (tx ty : ℚ) (d : Drop)
    (rest : List Drop) (hrun : st.running = true)
    (htap : tapScan tx ty st.drops = some (d, rest))
    (hpol : d.polluted = false) (h100 : st.waterPercent ≤ 100) :
    (handlePointer st tx ty).waterPercent = min 100 (st.waterPercent + 6) ∧
    (handlePointer st tx ty).score = st.score + 10 ∧
    st.waterPercent ≤ (handlePointer st tx ty).waterPercent ∧
    st.score < (handlePointer st tx ty).score ∧
    (st.waterPercent < 100 →
      st.waterPercent < (handlePointer st tx ty).waterPercent) := by
  rw [handlePointer_eq_of_clean st tx ty d rest hrun htap hpol,
    checkGameOver_waterPercent, checkGameOver_score]
  refine ⟨rfl, rfl, le_min h100 (by linarith), ?_,
    fun hlt => lt_min hlt (by linarith)⟩
  show st.score < st.score + 10
  linarith

/-- Closed-form check of `clean_hit_gains`: tapping the clean sample drop. -/
theorem clean_hit_gains_witness :
    (handlePointer stW 100 100).waterPercent = min 100 (stW.waterPercent + 6) ∧
    (handlePointer stW 100 100).score = stW.score + 10 ∧
    stW.waterPercent ≤ (handlePointer stW 100 100).waterPercent ∧
    stW.score < (handlePointer stW 100 100).score ∧
    (stW.waterPercent < 100 →
      stW.waterPercent < (handlePointer stW 100 100).waterPercent) :=
  clean_hit_gains stW 100 100 dropW [] (by norm_num [stW])
    (by norm_num [stW, dropW, tapScan, hitTest]) (by norm_num [dropW])
    (by norm_num [stW])

/-- C3: while a round runs, a tap that hits a polluted drop sets lives to
`max 0 (lives - 1)` — a loss of exactly one life, floored at 0 — and the
water meter to `max 0 (waterPercent - 10)`, and leaves the score
unchanged. -/
theorem polluted_hit_costs (st : GameState) (tx ty : ℚ) (d : Drop)
    (rest : List Drop) (hrun : st.running = true)
    (htap : tapScan tx ty st.drops = some (d, rest))
    (hpol : d.polluted = true) :
    (handlePointer st tx ty).lives = max 0 (st.lives - 1) ∧
    (handlePointer st tx ty).waterPercent = max 0 (st.waterPercent - 10) ∧
    (handlePointer st tx ty).score = st.score ∧
    (1 ≤ st.lives → (handlePointer st tx ty).lives = st.lives - 1) ∧
    (10 ≤ st.waterPercent →
      (handlePointer st tx ty).waterPercent = st.waterPercent - 10) := by
  rw [handlePointer_eq_of_polluted st tx ty d rest hrun htap hpol,
    checkGameOver_lives, checkGameOver_waterPercent, checkGameOver_score]
  refine ⟨rfl, rfl, rfl, fun h1 => ?_, fun h10 => ?_⟩
  · exact max_eq_right (by omega)
  · exact max_eq_right (by linarith)

/-- Closed-form check of `polluted_hit_costs`: tapping the polluted sample
drop. -/
theorem polluted_hit_costs_witness :
    (handlePointer stWP 100 100).lives = max 0 (stWP.lives - 1) ∧
    (handlePointer stWP 100 100).waterPercent = max 0 (stWP.waterPercent - 10) ∧
    (handlePointer stWP 100 100).score = stWP.score ∧
    (1 ≤ stWP.lives → (handlePointer stWP 100 100).lives = stWP.lives - 1) ∧
    (10 ≤ stWP.waterPercent →
      (handlePointer stWP 100 100).waterPercent = stWP.waterPercent - 10) :=
  polluted_hit_costs stWP 100 100 dropP [] (by norm_num [stWP, stW])
    (by norm_num [stWP, stW, dropP, tapScan, hitTest]) (by norm_num [dropP])

/-- C4 counterexample: a POLLUTED drop that falls past the bottom without
being tapped is removed from the drop list but leaves the water meter
unchanged (at 50), contradicting the claim that every missed drop causes
the water meter to decrease. -/
theorem polluted_miss_no_decrease_cex :
    stMissP.waterPercent = 50 ∧
    (update envW 0 stMissP).drops = [] ∧
    (update envW 0 stMissP).waterPercent = 50 := by
  norm_num [stMissP, dropMissP, dropP, envW, stW, update, spawnDrop,
    stepDrops, dropPhysics, offBottom, clampX]

/-- C4 (amended): in a frame with no spawn, every drop past the bottom
after its physics step is removed from the drop list; each removed CLEAN
drop lowers the water meter by 1.2 points floored at 0 (applied from the
last list element backwards), removed polluted drops leave the meter
unchanged, and surviving drops are kept in order and wall-clamped. -/
theorem missed_drop_effects (env : Env) (dt : ℚ) (st : GameState)
    (hns : env.now - st.lastSpawn ≤ st.spawnInterval) :
    (update env dt st).drops
      = ((st.drops.map (dropPhysics env dt)).filter
          (fun d => !offBottom env d)).map (clampX env.canvasW) ∧
    (update env dt st).waterPercent
      = List.foldr (fun _ w => max 0 (w - 6/5)) st.waterPercent
          (((st.drops.map (dropPhysics env dt)).filter
            (fun d => offBottom env d)).filter (fun d => !d.polluted)) := by
  have hcond : ¬ (env.now - st.lastSpawn > st.spawnInterval) := not_lt.mpr hns
  unfold update spawnDrop
  rw [if_neg hcond]
  exact stepDrops_characterization env dt st.drops st.waterPercent

/-- Closed-form check of `missed_drop_effects` at a state with one
surviving clean drop and one clean drop past the bottom. -/
theorem missed_drop_effects_witness :
    (update envW 0 stMix).drops
      = ((stMix.drops.map (dropPhysics envW 0)).filter
          (fun d => !offBottom envW d)).map (clampX envW.canvasW) ∧
    (update envW 0 stMix).waterPercent
      = List.foldr (fun _ w => max 0 (w - 6/5)) stMix.waterPercent
          (((stMix.drops.map (dropPhysics envW 0)).filter
            (fun d => offBottom envW d)).filter (fun d => !d.polluted)) :=
  missed_drop_effects envW 0 stMix (by norm_num [envW, stMix, stW])

/-- C5 counterexample: in a running round with 10 seconds left and one
life, tapping a polluted drop ends the round (running becomes false, via
checkGameOver) while timeLeft is still 10, contradicting the claim that a
round never ends before its timer reaches zero. -/
theorem round_ends_early_cex :
    stC5.running = true ∧ (0 : ℚ) < stC5.timeLeft ∧
    (handlePointer stC5 100 100).running = false ∧
    (handlePointer stC5 100 100).timeLeft = 10 := by
  norm_num [stC5, stW, dropP, handlePointer, tapScan, hitTest,
    checkGameOver, endRound]

/-- C5 (amended): a running round ends through the timer exactly when
`timeLeft` reaches 0 (the tick that brings it to 0 ends the round and
clamps it there), or EARLIER through `checkGameOver` after a tap that
leaves lives at 0 or the water meter at 100 or more; a frame update never
ends the round. -/
theorem round_end_conditions (env : Env) (dt tx ty : ℚ) (st : GameState)
    (hrun : st.running = true) :
    ((timerTick st).running = false ↔ st.timeLeft ≤ 1) ∧
    ((timerTick st).running = false → (timerTick st).timeLeft = 0) ∧
    ((handlePointer st tx ty).running = false →
      (handlePointer st tx ty).lives ≤ 0
        ∨ 100 ≤ (handlePointer st tx ty).waterPercent) ∧
    (update env dt st).running = true := by
  refine ⟨?_, ?_, ?_, by rw [update_running]; exact hrun⟩
  · unfold timerTick endRound
    by_cases ht : st.timeLeft - 1 ≤ 0
    · rw [if_pos ht]
      exact ⟨fun _ => by linarith, fun _ => rfl⟩
    · rw [if_neg ht]
      constructor
      · intro h
        rw [hrun] at h
        cases h
      · intro h
        linarith
  · unfold timerTick endRound
    by_cases ht : st.timeLeft - 1 ≤ 0
    · rw [if_pos ht]
      exact fun _ => rfl
    · rw [if_neg ht]
      intro h
      rw [hrun] at h
      cases h
  · rcases htap : tapScan tx ty st.drops with _ | ⟨d, rest⟩
    · rw [handlePointer_eq_of_none st tx ty htap, hrun]
      intro h
      cases h
    · by_cases hpol : d.polluted = true
      · rw [handlePointer_eq_of_polluted st tx ty d rest hrun htap hpol,
          checkGameOver_lives, checkGameOver_waterPercent]
        intro h
        rcases checkGameOver_running_eq_false _ h with hr | hc
        · simp [hrun] at hr
        · exact hc
      · rw [handlePointer_eq_of_clean st tx ty d rest hrun htap
          (Bool.not_eq_true _ |>.mp hpol), checkGameOver_lives,
          checkGameOver_waterPercent]
        intro h
        rcases checkGameOver_running_eq_false _ h with hr | hc
        · simp [hrun] at hr
        · exact hc

/-- Closed-form check of `round_end_conditions` at the sample state. -/
theorem round_end_conditions_witness :
    ((timerTick stW).running = false ↔ stW.timeLeft ≤ 1) ∧
    ((timerTick stW).running = false → (timerTick stW).timeLeft = 0) ∧
    ((handlePointer stW 100 100).running = false →
      (handlePointer stW 100 100).lives ≤ 0
        ∨ 100 ≤ (handlePointer stW 100 100).waterPercent) ∧
    (update envW 0 stW).running = true :=
  round_end_conditions envW 0 100 100 stW (by norm_num [stW])

/-- C6 (code evaluated at the failing input): starting a round with EASY
selected leaves `timeLeft` at 30, not at the difficulty's `roundTime` of
45 — `startTimer` (game.js line 460) overwrites the `settings.roundTime`
written by `startRound` (line 475) with the module constant
`roundTime = 30` (line 46), so every round starts at 30 seconds
regardless of difficulty, contradicting the claimed 45/30/20 and the
spec's difficulty-dependent 20-45 s duration. -/
theorem startRound_timeLeft_const :
    (startRound stEasy).timeLeft = 30 ∧
    (difficultySettings stEasy.currentDifficulty).roundTime = 45 ∧
    (startRound stEasy).timeLeft
      ≠ (difficultySettings stEasy.currentDifficulty).roundTime := by
  refine ⟨rfl, rfl, ?_⟩
  show roundTime ≠ (difficultySettings stEasy.currentDifficulty).roundTime
  norm_num [roundTime, stEasy, stW, difficultySettings]

/-- C7: a drop built by `createDrop` from in-range `rand` draws has
positive size, an x position within `[2*size, w - 2*size]`, starts above
the canvas at `y = -2*size` (negative), has positive downward speed (the
positive base draw times the positive difficulty `dropSpeed`), and carries
exactly the requested polluted flag. -/
theorem createDrop_shape (diff : Difficulty) (isPolluted : Bool)
    (w size x speed0 vx : ℚ)
    (hsize : if isPolluted then 24 ≤ size ∧ size ≤ 35 else 18 ≤ size ∧ size ≤ 28)
    (hx : size * 2 ≤ x ∧ x ≤ w - size * 2)
    (hspeed : if isPolluted then 40 ≤ speed0 ∧ speed0 ≤ 60
              else 30 ≤ speed0 ∧ speed0 ≤ 50) :
    0 < (createDrop diff isPolluted size x speed0 vx).size ∧
    (createDrop diff isPolluted size x speed0 vx).size * 2
      ≤ (createDrop diff isPolluted size x speed0 vx).x ∧
    (createDrop diff isPolluted size x speed0 vx).x
      ≤ w - (createDrop diff isPolluted size x speed0 vx).size * 2 ∧
    (createDrop diff isPolluted size x speed0 vx).y
      = -(createDrop diff isPolluted size x speed0 vx).size * 2 ∧
    (createDrop diff isPolluted size x speed0 vx).y < 0 ∧
    0 < (createDrop diff isPolluted size x speed0 vx).speed ∧
    (createDrop diff isPolluted size x speed0 vx).polluted = isPolluted := by
  have hs : 18 ≤ size := by
    cases isPolluted <;> simp at hsize <;> linarith [hsize.1]
  have hsp : 30 ≤ speed0 := by
    cases isPolluted <;> simp at hspeed <;> linarith [hspeed.1]
  have hmult : 0 < (difficultySettings diff).dropSpeed := by
    cases diff <;> norm_num [difficultySettings]
  refine ⟨?_, ?_, ?_, rfl, ?_, ?_, rfl⟩
  · show (0 : ℚ) < size
    linarith
  · show size * 2 ≤ x
    exact hx.1
  · show x ≤ w - size * 2
    exact hx.2
  · show -size * 2 < 0
    linarith
  · show 0 < speed0 * (difficultySettings diff).dropSpeed
    exact mul_pos (by linarith) hmult

/-- Closed-form check of `createDrop_shape` for a clean drop on the
default 720-wide canvas. -/
theorem createDrop_shape_witness :
    0 < (createDrop Difficulty.normal false 20 100 40 0).size ∧
    (createDrop Difficulty.normal false 20 100 40 0).size * 2
      ≤ (createDrop Difficulty.normal false 20 100 40 0).x ∧
    (createDrop Difficulty.normal false 20 100 40 0).x
      ≤ 720 - (createDrop Difficulty.normal false 20 100 40 0).size * 2 ∧
    (createDrop Difficulty.normal false 20 100 40 0).y
      = -(createDrop Difficulty.normal false 20 100 40 0).size * 2 ∧
    (createDrop Difficulty.normal false 20 100 40 0).y < 0 ∧
    0 < (createDrop Difficulty.normal false 20 100 40 0).speed ∧
    (createDrop Difficulty.normal false 20 100 40 0).polluted = false :=
  createDrop_shape Difficulty.normal false 720 20 100 40 0
    (by norm_num) (by norm_num) (by norm_num)

/-- C8 counterexample: with two overlapping hit candidates, the tap
removes the drop that comes LAST in the y-sorted list that `render`
maintains — here `dropA8`, the lower drop, spawned EARLIER — and not the
most recently spawned `dropB8`, which also passes the hit test but
survives.  This contradicts the claim's parenthetical that the drop
tested is the most recently spawned one. -/
theorem tap_not_most_recent_cex :
    stC8.drops = [dropA8, dropB8] ∧
    (render stC8).drops = [dropB8, dropA8] ∧
    hitTest dropA8 100 100 = true ∧
    hitTest dropB8 100 100 = true ∧
    (handlePointer (render stC8) 100 100).drops = [dropB8] ∧
    dropA8.y ≠ dropB8.y := by
  refine ⟨rfl, ?_, ?_, ?_, ?_, ?_⟩
  · norm_num [render, sortByY, stC8, stW, dropA8, dropB8, dropW,
      List.insertionSort, List.orderedInsert]
  · norm_num [hitTest, dropA8, dropW]
  · norm_num [hitTest, dropB8, dropW]
  · norm_num [handlePointer, render, sortByY, stC8, stW, dropA8, dropB8,
      dropW, List.insertionSort, List.orderedInsert, tapScan, hitTest,
      checkGameOver, endRound]
  · norm_num [dropA8, dropB8, dropW]

/-- C8 (amended): while a round runs, a tap affects at most one drop — the
LAST drop in the current list order whose hit test succeeds (`render`
keeps the list sorted by y, so this is the lowest hit drop, not
necessarily the most recently spawned): every drop after it in the list
fails the hit test, exactly that one occurrence is removed, and the scan
stops there. -/
theorem tap_removes_last_hit (st : GameState) (tx ty : ℚ) (d : Drop)
    (rest : List Drop) (hrun : st.running = true)
    (htap : tapScan tx ty st.drops = some (d, rest)) :
    (handlePointer st tx ty).drops = rest ∧
    ∃ pre post, st.drops = pre ++ d :: post ∧ rest = pre ++ post ∧
      hitTest d tx ty = true ∧ ∀ e ∈ post, hitTest e tx ty = false := by
  refine ⟨?_, tapScan_some tx ty st.drops d rest htap⟩
  by_cases hpol : d.polluted = true
  · rw [handlePointer_eq_of_polluted st tx ty d rest hrun htap hpol,
      checkGameOver_drops]
  · rw [handlePointer_eq_of_clean st tx ty d rest hrun htap
      (Bool.not_eq_true _ |>.mp hpol), checkGameOver_drops]

/-- Closed-form check of `tap_removes_last_hit` at the sample state. -/
theorem tap_removes_last_hit_witness :
    (handlePointer stW 100 100).drops = [] ∧
    ∃ pre post, stW.drops = pre ++ dropW :: post ∧ ([] : List Drop) = pre ++ post ∧
      hitTest dropW 100 100 = true ∧ ∀ e ∈ post, hitTest e 100 100 = false :=
  tap_removes_last_hit stW 100 100 dropW [] (by norm_num [stW])
    (by norm_num [stW, dropW, tapScan, hitTest])

/-- C9: when `update` spawns, the new spawn interval is exactly
`max spawnMin (spawnInterval₀ - elapsed * spawnAccel)` computed from the
current difficulty's settings (with `elapsed = roundTime - timeLeft`);
consequently `spawnInterval ≥ spawnMin` is preserved by every update step,
and `startRound` establishes it. -/
theorem spawn_interval_floor (env : Env) (dt : ℚ) (st : GameState)
    (hmin : (difficultySettings st.currentDifficulty).spawnMin ≤ st.spawnInterval) :
    (env.now - st.lastSpawn > st.spawnInterval →
      (update env dt st).spawnInterval
        = max (difficultySettings st.currentDifficulty).spawnMin
            ((difficultySettings st.currentDifficulty).spawnInterval
              - ((difficultySettings st.currentDifficulty).roundTime - st.timeLeft)
                * (difficultySettings st.currentDifficulty).spawnAccel)) ∧
    (difficultySettings st.currentDifficulty).spawnMin
      ≤ (update env dt st).spawnInterval ∧
    (difficultySettings (startRound st).currentDifficulty).spawnMin
      ≤ (startRound st).spawnInterval := by
  have hstart : ∀ dd : Difficulty,
      (difficultySettings dd).spawnMin ≤ (difficultySettings dd).spawnInterval := by
    intro dd
    cases dd <;> norm_num [difficultySettings]
  unfold update spawnDrop
  by_cases hc : env.now - st.lastSpawn > st.spawnInterval
  · rw [if_pos hc]
    exact ⟨fun _ => rfl, le_max_left _ _, hstart _⟩
  · rw [if_neg hc]
    exact ⟨fun h => absurd h hc, hmin, hstart _⟩

/-- Closed-form check of `spawn_interval_floor` at the sample state. -/
theorem spawn_interval_floor_witness :
    (envW.now - stW.lastSpawn > stW.spawnInterval →
      (update envW 0 stW).spawnInterval
        = max (difficultySettings stW.currentDifficulty).spawnMin
            ((difficultySettings stW.currentDifficulty).spawnInterval
              - ((difficultySettings stW.currentDifficulty).roundTime - stW.timeLeft)
                * (difficultySettings stW.currentDifficulty).spawnAccel)) ∧
    (difficultySettings stW.currentDifficulty).spawnMin
      ≤ (update envW 0 stW).spawnInterval ∧
    (difficultySettings (startRound stW).currentDifficulty).spawnMin
      ≤ (startRound stW).spawnInterval :=
  spawn_interval_floor envW 0 stW (by norm_num [stW, difficultySettings])

/-- C10: a frame of the main loop taken while paused changes none of the
game state fields — drops, score, lives, waterPercent, timeLeft,
spawnInterval — because `update` is skipped and the only state effect of
rendering, the y-sort of the drop list, is the identity on an
already-sorted list (and `render` itself leaves the list sorted at every
frame boundary). -/
theorem paused_frame_unchanged (env : Env) (dt : ℚ) (st : GameState)
    (hp : st.paused = true)
    (hsorted : st.drops.Sorted (fun a b => a.y ≤ b.y)) :
    (loop env dt st).drops = st.drops ∧
    (loop env dt st).score = st.score ∧
    (loop env dt st).lives = st.lives ∧
    (loop env dt st).waterPercent = st.waterPercent ∧
    (loop env dt st).timeLeft = st.timeLeft ∧
    (loop env dt st).spawnInterval = st.spawnInterval := by
  have hloop : loop env dt st = render st := by
    simp [loop, hp]
  have hdrops : sortByY st.drops = st.drops := by
    simpa [sortByY] using hsorted.insertionSort_eq
  rw [hloop]
  unfold render
  rw [hdrops]
  exact ⟨rfl, rfl, rfl, rfl, rfl, rfl⟩

/-- Closed-form check of `paused_frame_unchanged` at the paused sample
state (its one-element drop list is trivially sorted). -/
theorem paused_frame_unchanged_witness :
    (loop envW 0 stPW).drops = stPW.drops ∧
    (loop envW 0 stPW).score = stPW.score ∧
    (loop envW 0 stPW).lives = stPW.lives ∧
    (loop envW 0 stPW).waterPercent = stPW.waterPercent ∧
    (loop envW 0 stPW).timeLeft = stPW.timeLeft ∧
    (loop envW 0 stPW).spawnInterval = stPW.spawnInterval :=
  paused_frame_unchanged envW 0 stPW (by norm_num [stPW, stW])
    (by simp [stPW, stW, List.sorted_singleton])

end RippleEffect
